import Mathlib

/-!
Verification development for the alert component
(src/homeassistant/components/alert.py).

The Alert class is embedded as a pure transition system.  Each async
method of the class becomes a function from an AlertState to a pair of
the new AlertState and an Except value recording whether the method
returned normally or raised a Python exception.  A raised exception in
Python leaves all field mutations performed before the raise in place,
so an erroring function still returns the mutated state together with
the error.  Timer handles produced by event.async_track_point_in_time
are modelled by numeric ids; the outstanding field lists the timers
currently scheduled and not yet fired or cancelled, paired with the
delay (in minutes, as a rational) they were armed with.
-/

set_option autoImplicit false

/-- A renderable template object: async_render returns its text. -/
structure Tmpl where
  text : String
  deriving DecidableEq, Repr

/-- Model of Template.async_render. -/
def renderTmpl (t : Tmpl) : String := t.text

/-- Python exceptions that the embedded code can raise. -/
inductive PyErr where
  | nameError (msg : String)
  | typeError (msg : String)
  | attributeError (msg : String)
  | indexError
  | coerceInvalid
  deriving DecidableEq, Repr

/-- The immutable, properly typed fields of one Alert instance, as the
methods of the class use them: _name, _alert_state, _skip_first,
_message, _notifiers, _can_ack, _done_message and _delay (the list of
timedeltas built from the repeat configuration, kept as minutes). -/
structure AlertCfg where
  name : String
  alertState : String
  skipFirst : Bool
  message : Option Tmpl
  notifiers : List String
  canAck : Bool
  doneMessage : Option Tmpl
  delay : List Rat
  deriving DecidableEq, Repr

/-- The mutable runtime fields of one Alert instance, plus the set of
outstanding timers of the clock service that belong to this instance.
cancel models the _cancel field: the stored timer handle (by id), none
until the first timer is armed, and never reset to none afterwards.
outstanding lists (id, delay) for every timer currently scheduled and
neither fired nor cancelled; nextTimerId is the id the clock service
will give to the next scheduled timer. -/
structure AlertState where
  nextDelay : Nat
  firing : Bool
  ack : Bool
  cancel : Option Nat
  sendDone : Bool
  outstanding : List (Nat × Rat)
  nextTimerId : Nat
  deriving DecidableEq, Repr

/-- The runtime fields as Alert.__init__ leaves them:
_next_delay = 0, _firing = False, _ack = False, _cancel = None,
_send_done_message = False; no timer scheduled yet. -/
def initState : AlertState :=
  { nextDelay := 0, firing := false, ack := false, cancel := none,
    sendDone := false, outstanding := [], nextTimerId := 0 }

/-- Alert._send_message: one notify service call per configured target,
in list order, each carrying the rendered message.  This method exists
on the class but no call site reaches it: both call sites in _notify and
_notify_done_message invoke the bare name _send_message instead of
self._send_message, which raises NameError (see notifyMethod and
notifyDoneMessage below). -/
def sendMessageMethod (cfg : AlertCfg) (message : String) : List (String × String) :=
  cfg.notifiers.map (fun target => (target, message))

/-- Alert._schedule_notify: delay = self._delay[self._next_delay]
(IndexError when the delay list is too short, in particular when it is
empty), then a timer for now + delay is requested from the clock
service and its handle stored in _cancel, and _next_delay advances to
min(_next_delay + 1, len(_delay) - 1). -/
def scheduleNotify (cfg : AlertCfg) (s : AlertState) : AlertState × Except PyErr Unit :=
  match cfg.delay[s.nextDelay]? with
  | none => (s, .error .indexError)
  | some d =>
      ({ s with
          cancel := some s.nextTimerId,
          outstanding := s.outstanding ++ [(s.nextTimerId, d)],
          nextTimerId := s.nextTimerId + 1,
          nextDelay := min (s.nextDelay + 1) (cfg.delay.length - 1) }, .ok ())

/-- Alert._notify: return at once when not firing; otherwise, when not
acknowledged, set _send_done_message = True, render the message
(template if present, else the name) and then evaluate the bare name
_send_message, which is not defined at module level, so Python raises
NameError before self._schedule_notify can run; when acknowledged, skip
the dispatch block and fall through to self._schedule_notify. -/
def notifyMethod (cfg : AlertCfg) (s : AlertState) : AlertState × Except PyErr Unit :=
  if !s.firing then (s, .ok ())
  else if !s.ack then
    let s1 := { s with sendDone := true }
    let _message : String :=
      match cfg.message with
      | some t => renderTmpl t
      | none => cfg.name
    (s1, .error (.nameError "name _send_message is not defined"))
  else scheduleNotify cfg s

/-- Alert._notify_done_message: set _send_done_message = False first,
then return when _done_message is None; otherwise render it and
evaluate the bare name _send_message, raising NameError exactly as in
_notify. -/
def notifyDoneMessage (cfg : AlertCfg) (s : AlertState) : AlertState × Except PyErr Unit :=
  let s1 := { s with sendDone := false }
  match cfg.doneMessage with
  | none => (s1, .ok ())
  | some t =>
      let _message : String := renderTmpl t
      (s1, .error (.nameError "name _send_message is not defined"))

/-- Alert.begin_alerting: _ack = False, _firing = True, _next_delay = 0,
then await self._notify() when _skip_first is false, else await
self._schedule_notify().  The trailing async_schedule_update_ha_state
call is external presentation plumbing and does not touch these fields. -/
def beginAlerting (cfg : AlertCfg) (s : AlertState) : AlertState × Except PyErr Unit :=
  if !cfg.skipFirst then
    notifyMethod cfg { s with ack := false, firing := true, nextDelay := 0 }
  else
    scheduleNotify cfg { s with ack := false, firing := true, nextDelay := 0 }

/-- Alert.end_alerting: first self._cancel() -- a TypeError (None is not
callable) when no timer handle was ever stored; with a stored handle the
call cancels that timer (a no-op if it already fired), and the _cancel
field keeps the stale handle.  Then _ack = False, _firing = False, and
when _send_done_message is set, await self._notify_done_message(). -/
def endAlerting (cfg : AlertCfg) (s : AlertState) : AlertState × Except PyErr Unit :=
  match s.cancel with
  | none => (s, .error (.typeError "NoneType object is not callable"))
  | some tid =>
      if s.sendDone then
        notifyDoneMessage cfg
          { s with
              outstanding := s.outstanding.filter (fun t => t.1 != tid),
              ack := false, firing := false }
      else
        ({ s with
            outstanding := s.outstanding.filter (fun t => t.1 != tid),
            ack := false, firing := false }, .ok ())

/-- Alert.watched_entity_change: two successive if statements.  When the
new value equals the alert state and the alert is not firing, await
self.begin_alerting(); an exception there propagates and skips the rest.
Then, when the new value differs from the alert state and the alert is
firing, await self.end_alerting(). -/
def watchedEntityChange (cfg : AlertCfg) (toState : String) (s : AlertState) :
    AlertState × Except PyErr Unit :=
  if toState == cfg.alertState && !s.firing then
    match beginAlerting cfg s with
    | (s1, Except.error e) => (s1, Except.error e)
    | (s1, Except.ok _) =>
        if toState != cfg.alertState && s1.firing then endAlerting cfg s1
        else (s1, Except.ok ())
  else if toState != cfg.alertState && s.firing then endAlerting cfg s
  else (s, .ok ())

/-- Alert.async_turn_on: _ack = False and a state update; it never
raises and ignores its keyword arguments. -/
def asyncTurnOn (s : AlertState) : AlertState × Except PyErr Unit :=
  ({ s with ack := false }, .ok ())

/-- Alert.async_turn_off: _ack = True and a state update; it never
raises and does not consult _firing. -/
def asyncTurnOff (s : AlertState) : AlertState × Except PyErr Unit :=
  ({ s with ack := true }, .ok ())

/-- Alert.async_toggle: async_turn_on when _ack is set, else
async_turn_off. -/
def asyncToggle (s : AlertState) : AlertState × Except PyErr Unit :=
  if s.ack then asyncTurnOn s else asyncTurnOff s

/-- The state property: on while firing unacknowledged, off while
firing acknowledged, idle otherwise. -/
def stateOf (s : AlertState) : String :=
  if s.firing then (if s.ack then "off" else "on") else "idle"

/-- The hidden property: hidden when acknowledgment is disabled or the
alert is not firing. -/
def hiddenOf (cfg : AlertCfg) (s : AlertState) : Bool :=
  !cfg.canAck || !s.firing

/-- A timer belonging to this Alert fires.  The clock service only
fires timers that are still outstanding (a cancelled or already fired
handle never fires again); firing consumes the timer and runs the
_notify callback. -/
def timerFire (cfg : AlertCfg) (tid : Nat) (s : AlertState) : AlertState × Except PyErr Unit :=
  if s.outstanding.any (fun t => t.1 == tid) then
    notifyMethod cfg { s with outstanding := s.outstanding.filter (fun t => t.1 != tid) }
  else (s, .ok ())

/-- The serialized events that can touch one Alert instance: a change
of the watched entity to a given value, the firing of a timer with a
given id, and the three control commands. -/
inductive Event where
  | watched (toState : String)
  | timer (tid : Nat)
  | turnOnE
  | turnOffE
  | toggleE
  deriving DecidableEq, Repr

/-- One event applied to the state.  An exception raised by the handler
propagates into the event loop and is logged there; the mutations made
before the raise persist, so the step keeps the returned state. -/
def step (cfg : AlertCfg) (s : AlertState) (e : Event) : AlertState :=
  match e with
  | .watched t => (watchedEntityChange cfg t s).1
  | .timer tid => (timerFire cfg tid s).1
  | .turnOnE => (asyncTurnOn s).1
  | .turnOffE => (asyncTurnOff s).1
  | .toggleE => (asyncToggle s).1

/-- The state reached from the freshly constructed instance after a
serialized list of events. -/
def run (cfg : AlertCfg) (evs : List Event) : AlertState :=
  evs.foldl (step cfg) initState

/-- A dynamically typed Python value, as passed between async_setup and
Alert.__init__. -/
inductive PyVal where
  | none
  | str (s : String)
  | bool (b : Bool)
  | num (q : Rat)
  | listV (xs : List PyVal)
  | tmpl (t : Tmpl)

/-- The formal parameters of Alert.__init__ after self and hass, in
their declared order: entity_id, name, done_message, watched_entity_id,
state, repeat, skip_first, message, notifiers, can_ack. -/
structure InitParams where
  entity_id : PyVal
  name : PyVal
  done_message : PyVal
  watched_entity_id : PyVal
  state : PyVal
  repeatArg : PyVal
  skip_first : PyVal
  message : PyVal
  notifiers : PyVal
  can_ack : PyVal

/-- The positional binding performed by the constructor call inside
async_setup.  The Lean arguments carry the names of the local variables
at the call site, in the order the call passes them: object_id, name,
watched_entity_id, alert_state, repeat, skip_first, message,
done_message, notifiers, can_ack.  Python binds the i-th actual to the
i-th formal of __init__, whose order differs, giving the record below. -/
def alertInitBind (object_id name watched_entity_id alert_state repeatA
    skip_first message done_message notifiers can_ack : PyVal) : InitParams :=
  { entity_id := object_id,
    name := name,
    done_message := watched_entity_id,
    watched_entity_id := alert_state,
    state := repeatA,
    repeatArg := skip_first,
    skip_first := message,
    message := done_message,
    notifiers := notifiers,
    can_ack := can_ack }

/-- The instance fields as Alert.__init__ assigns them (the dynamically
typed ones verbatim, plus the computed _delay list of timedeltas kept
as minutes). -/
structure AlertFields where
  fldName : PyVal
  fldAlertState : PyVal
  fldSkipFirst : PyVal
  fldMessage : PyVal
  fldNotifiers : PyVal
  fldCanAck : PyVal
  fldDoneMessage : PyVal
  fldDelay : List Rat

/-- Python iteration over a value: lists yield their elements, strings
yield their one-character substrings, every other value used here
(None, bool, number, template) raises TypeError. -/
def pyIter : PyVal → Except PyErr (List PyVal)
  | .listV xs => .ok xs
  | .str s => .ok (s.toList.map (fun c => .str (String.singleton c)))
  | _ => .error (.typeError "object is not iterable")

/-- Model of timedelta(minutes=val): numbers are accepted (bool is an int
subclass in Python, so True and False give 1 and 0 minutes); strings
and the remaining values raise TypeError. -/
def timedeltaMinutes : PyVal → Except PyErr Rat
  | .num q => .ok q
  | .bool b => .ok (if b then 1 else 0)
  | _ => .error (.typeError "unsupported type for timedelta minutes")

/-- The body of Alert.__init__ on already bound parameters.  The
assignments run in source order; the first possible raise is
self._message.hass = hass, executed when _message is not None and an
AttributeError unless _message is a template object; the second is the
comprehension over repeat building _delay, a TypeError when repeat is
not iterable or its elements are not usable as timedelta minutes.  On
success the runtime flags start as in initState. -/
def alertInitRun (p : InitParams) : Except PyErr AlertFields :=
  (match p.message with
   | .none => Except.ok ()
   | .tmpl _ => Except.ok ()
   | _ => Except.error (.attributeError "object has no attribute hass")) >>= fun _ =>
  pyIter p.repeatArg >>= fun vals =>
  vals.mapM timedeltaMinutes >>= fun delays =>
  Except.ok
    { fldName := p.name,
      fldAlertState := p.state,
      fldSkipFirst := p.skip_first,
      fldMessage := p.message,
      fldNotifiers := p.notifiers,
      fldCanAck := p.can_ack,
      fldDoneMessage := p.done_message,
      fldDelay := delays }

/-- Model of cv.ensure_list from the validator library used by ALERT_SCHEMA:
None becomes the empty list, a list passes through unchanged, any other
value is wrapped in a one-element list. -/
def ensureList : PyVal → List PyVal
  | .none => []
  | .listV xs => xs
  | v => [v]

/-- Model of vol.Coerce(float) applied to one element: numbers pass (bool being
an int subclass), everything else used here fails coercion. -/
def coerceFloat : PyVal → Except PyErr Rat
  | .num q => .ok q
  | .bool b => .ok (if b then 1 else 0)
  | _ => .error .coerceInvalid

/-- The repeat validator of ALERT_SCHEMA, vol.All(cv.ensure_list,
[vol.Coerce(float)]): ensure_list first, then element-wise coercion; an
empty list passes vacuously. -/
def validateRepeat (v : PyVal) : Except PyErr (List Rat) :=
  (ensureList v).mapM coerceFloat

/-- The notifiers validator of ALERT_SCHEMA, cv.ensure_list: no
emptiness check of any kind. -/
def validateNotifiers (v : PyVal) : List PyVal :=
  ensureList v

/-- A concrete configuration: repeat [5, 10] minutes, one target, no
templates, skip_first false, can_acknowledge true. -/
def cfgA : AlertCfg :=
  { name := "Garage Door", alertState := "on", skipFirst := false,
    message := none, notifiers := ["frank"], canAck := true,
    doneMessage := none, delay := [5, 10] }

/-- cfgA with skip_first true. -/
def cfgSkip : AlertCfg := { cfgA with skipFirst := true }

/-- cfgA with a done-message template. -/
def cfgDone : AlertCfg := { cfgA with doneMessage := some { text := "cleared" } }

/-- A state in the middle of a firing episode, right after the timer
with id 0 has fired and been consumed by the clock service, before the
_notify body runs. -/
def sFire : AlertState :=
  { nextDelay := 1, firing := true, ack := false, cancel := some 0,
    sendDone := false, outstanding := [], nextTimerId := 1 }

/-- A firing state in which a notification cycle has run (so
_send_done_message is set) and the timer with id 1 is armed. -/
def sDone : AlertState :=
  { nextDelay := 1, firing := true, ack := false, cancel := some 1,
    sendDone := true, outstanding := [(1, 10)], nextTimerId := 2 }

/-- The positional binding built by the Alert construction in
async_setup for a concrete configuration: object_id garage_door, name
Garage Door, watched entity sensor.door, alert state on, repeat
[5, 10], skip_first False, message None, done_message None, notifiers
[frank], can_ack True. -/
def bindC1 : InitParams :=
  alertInitBind (PyVal.str "garage_door") (PyVal.str "Garage Door")
    (PyVal.str "sensor.door") (PyVal.str "on")
    (PyVal.listV [PyVal.num 5, PyVal.num 10]) (PyVal.bool false)
    PyVal.none PyVal.none (PyVal.listV [PyVal.str "frank"]) (PyVal.bool true)

/-- Claim C1: false of the code.  async_setup passes its arguments in
the order object_id, name, watched_entity_id, alert_state, repeat,
skip_first, message, done_message, notifiers, can_ack, while
Alert.__init__ declares entity_id, name, done_message,
watched_entity_id, state, repeat, skip_first, message, notifiers,
can_ack, so the configured watched entity id lands in the done_message
parameter, the trigger value in watched_entity_id, the repeat list in
state, and the skip-first flag in repeat; building _delay then iterates
over that boolean and raises TypeError, so no Alert is ever constructed
with the configured fields in the matching parameters. -/
theorem C1_init_positional_mismatch :
    bindC1.done_message = PyVal.str "sensor.door" ∧
    bindC1.watched_entity_id = PyVal.str "on" ∧
    bindC1.state = PyVal.listV [PyVal.num 5, PyVal.num 10] ∧
    bindC1.repeatArg = PyVal.bool false ∧
    bindC1.skip_first = PyVal.none ∧
    alertInitRun bindC1 = Except.error (PyErr.typeError "object is not iterable") :=
  ⟨rfl, rfl, rfl, rfl, rfl, rfl⟩

/-- Claim C2 fails as stated: async_turn_off sets _ack = True without
consulting _firing, so invoking turnOff on the freshly constructed
(idle) instance yields acknowledged true while firing is false. -/
theorem C2_counterexample :
    (asyncTurnOff initState).1.ack = true ∧ (asyncTurnOff initState).1.firing = false :=
  ⟨rfl, rfl⟩

/-- Claim C3: false of the code.  With skip_first false, begin_alerting
runs a notification cycle whose dispatch evaluates the bare name
_send_message and raises NameError, which propagates to the caller
under entirely normal conditions; the three control commands do always
return normally. -/
theorem C3_core_operation_raises :
    (beginAlerting cfgA initState).2 =
      Except.error (PyErr.nameError "name _send_message is not defined") ∧
    (asyncTurnOn initState).2 = Except.ok () ∧
    (asyncTurnOff initState).2 = Except.ok () ∧
    (asyncToggle initState).2 = Except.ok () ∧
    stateOf (asyncTurnOff initState).1 = stateOf initState :=
  ⟨rfl, rfl, rfl, rfl, rfl⟩

/-- Claim C6: false of the code.  The stale-timer return and the
acknowledged branch behave as claimed, but in the unacknowledged branch
the dispatch raises NameError from the bare _send_message call, so no
message reaches any target and self._schedule_notify is never reached:
no next timer is armed. -/
theorem C6_notify_callback_eval :
    notifyMethod cfgA { sFire with firing := false } =
      ({ sFire with firing := false }, Except.ok ()) ∧
    notifyMethod cfgA sFire =
      ({ sFire with sendDone := true },
        Except.error (PyErr.nameError "name _send_message is not defined")) ∧
    (notifyMethod cfgA sFire).1.outstanding = [] ∧
    notifyMethod cfgA { sFire with ack := true } =
      ({ sFire with
          ack := true, cancel := some 1, outstanding := [(1, 10)],
          nextTimerId := 2, nextDelay := 1 }, Except.ok ()) :=
  ⟨rfl, rfl, rfl, rfl⟩

/-- Claim C7: false of the code.  When a notification cycle ran this
episode and a done-message template is configured, the done-message
dispatch raises NameError from the bare _send_message call, so no done
message is ever delivered; with no template the pending flag is still
cleared and nothing is sent, and with the flag clear end_alerting sends
nothing, as claimed. -/
theorem C7_done_message_eval :
    notifyDoneMessage cfgDone sDone =
      ({ sDone with sendDone := false },
        Except.error (PyErr.nameError "name _send_message is not defined")) ∧
    notifyDoneMessage cfgA sDone = ({ sDone with sendDone := false }, Except.ok ()) ∧
    endAlerting cfgDone { sDone with sendDone := false } =
      ({ sDone with
          sendDone := false, ack := false, firing := false,
          outstanding := [] }, Except.ok ()) :=
  ⟨rfl, rfl, rfl⟩

/-- Claim C8: false of the code.  With skip_first true and repeat
[5, 10], the trigger arms a 5-minute timer and dispatches nothing, as
claimed; but when that timer fires, the callback raises NameError from
the bare _send_message call, so no notification is sent and no 10-minute
timer is armed. -/
theorem C8_skip_first_trace_eval :
    beginAlerting cfgSkip initState =
      ({ nextDelay := 1, firing := true, ack := false, cancel := some 0,
          sendDone := false, outstanding := [(0, 5)], nextTimerId := 1 },
        Except.ok ()) ∧
    timerFire cfgSkip 0 (beginAlerting cfgSkip initState).1 =
      ({ nextDelay := 1, firing := true, ack := false, cancel := some 0,
          sendDone := true, outstanding := [], nextTimerId := 1 },
        Except.error (PyErr.nameError "name _send_message is not defined")) :=
  ⟨rfl, rfl⟩

/-- Claim C9 fails as stated: _cancel is never reset to None, so after
a firing episode that armed a timer ends, the stored handle is still
non-nil while firing is false. -/
theorem C9_counterexample :
    (run cfgSkip [Event.watched "on", Event.watched "idle"]).firing = false ∧
    (run cfgSkip [Event.watched "on", Event.watched "idle"]).cancel = some 0 :=
  ⟨rfl, rfl⟩

/-- Claim C10: async_toggle dispatches to async_turn_on exactly when
_ack is set and to async_turn_off otherwise, and since those two only
flip _ack, a double toggle restores the entire state. -/
theorem C10_toggle_involution (s : AlertState) :
    asyncToggle s = (if s.ack then asyncTurnOn s else asyncTurnOff s) ∧
    (asyncToggle (asyncToggle s).1).1 = s := by
  refine ⟨rfl, ?_⟩
  rcases s with ⟨nd, f, a, c, sd, o, nt⟩
  cases a <;> rfl

/-- The method _schedule_notify leaves _ack and _firing untouched. -/
theorem scheduleNotify_flags (cfg : AlertCfg) (s : AlertState) :
    (scheduleNotify cfg s).1.ack = s.ack ∧ (scheduleNotify cfg s).1.firing = s.firing := by
  unfold scheduleNotify
  cases cfg.delay[s.nextDelay]? <;> exact ⟨rfl, rfl⟩

/-- The method _notify leaves _ack and _firing untouched. -/
theorem notifyMethod_flags (cfg : AlertCfg) (s : AlertState) :
    (notifyMethod cfg s).1.ack = s.ack ∧ (notifyMethod cfg s).1.firing = s.firing := by
  unfold notifyMethod
  by_cases hf : (!s.firing) = true
  · rw [if_pos hf]; exact ⟨rfl, rfl⟩
  · rw [if_neg hf]
    by_cases ha : (!s.ack) = true
    · rw [if_pos ha]; exact ⟨rfl, rfl⟩
    · rw [if_neg ha]; exact scheduleNotify_flags cfg s

/-- The timer-service wrapper around _notify leaves _ack and _firing
untouched. -/
theorem timerFire_flags (cfg : AlertCfg) (tid : Nat) (s : AlertState) :
    (timerFire cfg tid s).1.ack = s.ack ∧ (timerFire cfg tid s).1.firing = s.firing := by
  unfold timerFire
  by_cases hAny : (s.outstanding.any (fun t => t.1 == tid)) = true
  · rw [if_pos hAny]
    exact ⟨(notifyMethod_flags cfg _).1.trans rfl, (notifyMethod_flags cfg _).2.trans rfl⟩
  · rw [if_neg hAny]; exact ⟨rfl, rfl⟩

/-- The method _notify_done_message only clears _send_done_message,
whether or not it then raises on the dispatch. -/
theorem notifyDoneMessage_state (cfg : AlertCfg) (s : AlertState) :
    (notifyDoneMessage cfg s).1 = { s with sendDone := false } := by
  unfold notifyDoneMessage
  cases cfg.doneMessage <;> rfl

/-- The method _notify_done_message either returns normally or raises
the NameError of the bare _send_message call; no other outcome exists. -/
theorem notifyDoneMessage_result (cfg : AlertCfg) (s : AlertState) :
    (notifyDoneMessage cfg s).2 = Except.ok () ∨
    (notifyDoneMessage cfg s).2 =
      Except.error (PyErr.nameError "name _send_message is not defined") := by
  unfold notifyDoneMessage
  cases cfg.doneMessage
  · exact Or.inl rfl
  · exact Or.inr rfl

/-- The method begin_alerting always leaves _ack cleared, whichever
branch runs and whether or not the notification cycle raises. -/
theorem beginAlerting_ack (cfg : AlertCfg) (s : AlertState) :
    (beginAlerting cfg s).1.ack = false := by
  unfold beginAlerting
  by_cases h : (!cfg.skipFirst) = true
  · rw [if_pos h]
    exact (notifyMethod_flags cfg _).1.trans rfl
  · rw [if_neg h]
    exact (scheduleNotify_flags cfg _).1.trans rfl

/-- The method end_alerting either leaves the state untouched (when it
raises on the missing timer handle) or leaves _ack cleared. -/
theorem endAlerting_cases (cfg : AlertCfg) (s : AlertState) :
    (endAlerting cfg s).1 = s ∨ (endAlerting cfg s).1.ack = false := by
  unfold endAlerting
  cases hc : s.cancel
  · exact Or.inl rfl
  · right
    dsimp only
    by_cases hd : s.sendDone = true
    · rw [if_pos hd]
      exact ((congrArg AlertState.ack (notifyDoneMessage_state cfg _)).trans rfl)
    · rw [if_neg hd]

/-- The handler watched_entity_change either leaves the state untouched
or leaves _ack cleared. -/
theorem watchedEntityChange_cases (cfg : AlertCfg) (t : String) (s : AlertState) :
    (watchedEntityChange cfg t s).1 = s ∨ (watchedEntityChange cfg t s).1.ack = false := by
  unfold watchedEntityChange
  by_cases h1 : (t == cfg.alertState && !s.firing) = true
  · rw [if_pos h1]
    have hba : (beginAlerting cfg s).1.ack = false := beginAlerting_ack cfg s
    rcases hJ : beginAlerting cfg s with ⟨s1, r1⟩
    rw [hJ] at hba
    cases r1
    · right; exact hba
    · dsimp only
      by_cases h2 : (t != cfg.alertState && s1.firing) = true
      · rw [if_pos h2]
        rcases endAlerting_cases cfg s1 with he | he
        · right; rw [he]; exact hba
        · right; exact he
      · rw [if_neg h2]; right; exact hba
  · rw [if_neg h1]
    by_cases h2 : (t != cfg.alertState && s.firing) = true
    · rw [if_pos h2]
      exact endAlerting_cases cfg s
    · rw [if_neg h2]; left; rfl

/-- Claim C2, amended: the invariant acknowledged implies firing is
preserved by the watched-value change handler, by the timer callback
(directly and through the timer service), and by turnOn; it is not
preserved by turnOff or toggle, which set _ack without consulting
_firing (see the counterexample). -/
theorem C2_ack_implies_firing_amended (cfg : AlertCfg) (t : String) (tid : Nat)
    (s : AlertState) (h : s.ack = true → s.firing = true) :
    ((watchedEntityChange cfg t s).1.ack = true →
      (watchedEntityChange cfg t s).1.firing = true) ∧
    ((notifyMethod cfg s).1.ack = true → (notifyMethod cfg s).1.firing = true) ∧
    ((timerFire cfg tid s).1.ack = true → (timerFire cfg tid s).1.firing = true) ∧
    ((asyncTurnOn s).1.ack = true → (asyncTurnOn s).1.firing = true) := by
  refine ⟨?_, ?_, ?_, ?_⟩
  · rcases watchedEntityChange_cases cfg t s with he | he
    · rw [he]; exact h
    · intro ha; rw [he] at ha; cases ha
  · intro ha
    rw [(notifyMethod_flags cfg s).1] at ha
    rw [(notifyMethod_flags cfg s).2]
    exact h ha
  · intro ha
    rw [(timerFire_flags cfg tid s).1] at ha
    rw [(timerFire_flags cfg tid s).2]
    exact h ha
  · intro ha; cases ha

/-- Witness for the amended C2 at a concrete input. -/
theorem C2_ack_implies_firing_witness :
    (initState.ack = true → initState.firing = true) ∧
    (((watchedEntityChange cfgA "on" initState).1.ack = true →
       (watchedEntityChange cfgA "on" initState).1.firing = true) ∧
     ((notifyMethod cfgA initState).1.ack = true →
       (notifyMethod cfgA initState).1.firing = true) ∧
     ((timerFire cfgA 0 initState).1.ack = true →
       (timerFire cfgA 0 initState).1.firing = true) ∧
     ((asyncTurnOn initState).1.ack = true →
       (asyncTurnOn initState).1.firing = true)) :=
  ⟨by decide, C2_ack_implies_firing_amended cfgA "on" 0 initState (by decide)⟩

/-- Claim C4 fails as stated: with skip_first false, begin_alerting
raises NameError inside the notification cycle before any timer is
armed, leaving a reachable state that is firing with no handle ever
stored in _cancel; a later clearing of the watched value then calls
end_alerting, whose unconditional self._cancel() raises TypeError
because _cancel is still None. -/
theorem C4_counterexample :
    (run cfgA [Event.watched "on"]).firing = true ∧
    (run cfgA [Event.watched "on"]).cancel = none ∧
    (watchedEntityChange cfgA "idle" (run cfgA [Event.watched "on"])).2 =
      Except.error (PyErr.typeError "NoneType object is not callable") :=
  ⟨rfl, rfl, rfl⟩

/-- Claim C4, amended: whenever a timer handle is stored, end_alerting
clears _firing and _ack, removes the stored timer from the outstanding
set, and does not raise the none-not-callable TypeError; the safety
claimed for the case in which no handle was ever stored does not hold
(see the counterexample). -/
theorem C4_end_alerting_amended (cfg : AlertCfg) (s : AlertState) (tid : Nat)
    (h : s.cancel = some tid) :
    (endAlerting cfg s).1.firing = false ∧
    (endAlerting cfg s).1.ack = false ∧
    ((endAlerting cfg s).1.outstanding.all (fun t => t.1 != tid)) = true ∧
    (endAlerting cfg s).2 ≠ Except.error (PyErr.typeError "NoneType object is not callable") := by
  have hall : ∀ l : List (Nat × Rat),
      ((l.filter (fun t => t.1 != tid)).all (fun t => t.1 != tid)) = true := by
    intro l
    rw [List.all_eq_true]
    intro t ht
    exact (List.mem_filter.mp ht).2
  unfold endAlerting
  rw [h]
  dsimp only
  by_cases hd : s.sendDone = true
  · rw [if_pos hd]
    refine ⟨?_, ?_, ?_, ?_⟩
    · rw [notifyDoneMessage_state]
    · rw [notifyDoneMessage_state]
    · rw [notifyDoneMessage_state]
      exact hall _
    · rcases notifyDoneMessage_result cfg _ with hr | hr <;> rw [hr] <;> simp
  · rw [if_neg hd]
    exact ⟨rfl, rfl, hall _, by simp⟩

/-- Witness for the amended C4 at a concrete input. -/
theorem C4_end_alerting_witness :
    sDone.cancel = some 1 ∧
    ((endAlerting cfgA sDone).1.firing = false ∧
     (endAlerting cfgA sDone).1.ack = false ∧
     ((endAlerting cfgA sDone).1.outstanding.all (fun t => t.1 != 1)) = true ∧
     (endAlerting cfgA sDone).2 ≠
       Except.error (PyErr.typeError "NoneType object is not callable")) :=
  ⟨rfl, C4_end_alerting_amended cfgA sDone 1 rfl⟩

/-- Parameters of __init__ as they would be bound with the configured
values in the matching positions, with an empty repeat list and an
empty notifier list: nothing in the constructor rejects them. -/
def pEmptyLists : InitParams :=
  { entity_id := PyVal.str "a", name := PyVal.str "A",
    done_message := PyVal.none, watched_entity_id := PyVal.str "sensor.door",
    state := PyVal.str "on", repeatArg := PyVal.listV [],
    skip_first := PyVal.bool true, message := PyVal.none,
    notifiers := PyVal.listV [], can_ack := PyVal.bool true }

/-- Class-level configuration with an empty delay list and an empty
target list. -/
def cfgEmptyLists : AlertCfg :=
  { name := "A", alertState := "on", skipFirst := true, message := none,
    notifiers := [], canAck := true, doneMessage := none, delay := [] }

/-- Claim C5 fails as stated: the schema validators accept an empty
repeat list and an empty notifier list, __init__ accepts them too (the
watcher subscription at the end of __init__ then runs), and the empty
repeat list surfaces later as a runtime IndexError the first time a
notification is scheduled. -/
theorem C5_counterexample :
    validateRepeat (PyVal.listV []) = Except.ok [] ∧
    validateNotifiers (PyVal.listV []) = [] ∧
    alertInitRun pEmptyLists =
      Except.ok
        { fldName := PyVal.str "A", fldAlertState := PyVal.str "on",
          fldSkipFirst := PyVal.bool true, fldMessage := PyVal.none,
          fldNotifiers := PyVal.listV [], fldCanAck := PyVal.bool true,
          fldDoneMessage := PyVal.none, fldDelay := [] } ∧
    (beginAlerting cfgEmptyLists initState).2 = Except.error PyErr.indexError :=
  ⟨rfl, rfl, rfl, rfl⟩

/-- Claim C5, amended: empty repeat-interval and target lists pass the
schema and the constructor unrejected; an empty repeat list is a
runtime failure, an IndexError raised by _schedule_notify whenever it
runs, and an empty target list merely makes dispatch a no-op. -/
theorem C5_empty_lists_amended (cfg : AlertCfg) (s : AlertState)
    (h : cfg.delay = []) :
    validateRepeat (PyVal.listV []) = Except.ok [] ∧
    validateNotifiers (PyVal.listV []) = [] ∧
    scheduleNotify cfg s = (s, Except.error PyErr.indexError) ∧
    (∀ m : String, sendMessageMethod { cfg with notifiers := [] } m = []) := by
  refine ⟨rfl, rfl, ?_, fun m => rfl⟩
  unfold scheduleNotify
  rw [h]
  rfl

/-- Witness for the amended C5 at a concrete input. -/
theorem C5_empty_lists_witness :
    cfgEmptyLists.delay = [] ∧
    (validateRepeat (PyVal.listV []) = Except.ok [] ∧
     validateNotifiers (PyVal.listV []) = [] ∧
     scheduleNotify cfgEmptyLists initState = (initState, Except.error PyErr.indexError) ∧
     (∀ m : String, sendMessageMethod { cfgEmptyLists with notifiers := [] } m = [])) :=
  ⟨rfl, C5_empty_lists_amended cfgEmptyLists initState rfl⟩

/-- The timer bookkeeping invariant the code actually maintains: at
most one timer is outstanding, and an outstanding timer is the one
whose handle is stored in _cancel, during a firing episode. -/
def TimerInv (s : AlertState) : Prop :=
  match s.outstanding with
  | [] => True
  | [t] => s.cancel = some t.1 ∧ s.firing = true
  | _ :: _ :: _ => False

/-- A state with no outstanding timer satisfies the invariant. -/
theorem timerInv_nil {s : AlertState} (h : s.outstanding = []) : TimerInv s := by
  unfold TimerInv
  rw [h]
  trivial

/-- Unfolding the invariant. -/
theorem timerInv_cases {s : AlertState} (h : TimerInv s) :
    s.outstanding = [] ∨
    ∃ t, s.outstanding = [t] ∧ s.cancel = some t.1 ∧ s.firing = true := by
  unfold TimerInv at h
  rcases ho : s.outstanding with _ | ⟨t, _ | ⟨u, l⟩⟩
  · exact Or.inl rfl
  · rw [ho] at h
    exact Or.inr ⟨t, rfl, h⟩
  · rw [ho] at h
    exact h.elim

/-- The method _schedule_notify establishes the invariant when no timer
is outstanding and the alert is firing. -/
theorem timerInv_schedule (cfg : AlertCfg) (s : AlertState)
    (ho : s.outstanding = []) (hf : s.firing = true) :
    TimerInv (scheduleNotify cfg s).1 := by
  unfold scheduleNotify
  cases cfg.delay[s.nextDelay]?
  · exact timerInv_nil ho
  · unfold TimerInv
    simp [ho, hf]

/-- The method _notify preserves the invariant from an empty
outstanding set, which is how every call site reaches it. -/
theorem timerInv_notify (cfg : AlertCfg) (s : AlertState) (ho : s.outstanding = []) :
    TimerInv (notifyMethod cfg s).1 := by
  unfold notifyMethod
  by_cases hf : (!s.firing) = true
  · rw [if_pos hf]
    exact timerInv_nil ho
  · rw [if_neg hf]
    by_cases ha : (!s.ack) = true
    · rw [if_pos ha]
      exact timerInv_nil ho
    · rw [if_neg ha]
      have hf2 : s.firing = true := by
        cases hft : s.firing
        · rw [hft] at hf
          exact absurd rfl hf
        · rfl
      exact timerInv_schedule cfg s ho hf2

/-- The method begin_alerting establishes the invariant when no timer
is outstanding. -/
theorem timerInv_begin (cfg : AlertCfg) (s : AlertState) (ho : s.outstanding = []) :
    TimerInv (beginAlerting cfg s).1 := by
  unfold beginAlerting
  by_cases h : (!cfg.skipFirst) = true
  · rw [if_pos h]
    exact timerInv_notify cfg _ ho
  · rw [if_neg h]
    exact timerInv_schedule cfg _ ho rfl

/-- The method end_alerting preserves the invariant. -/
theorem timerInv_end (cfg : AlertCfg) (s : AlertState) (h : TimerInv s) :
    TimerInv (endAlerting cfg s).1 := by
  unfold endAlerting
  cases hc : s.cancel
  · exact h
  · rename_i tid
    have hout : (s.outstanding.filter (fun t => t.1 != tid)) = [] := by
      rcases timerInv_cases h with ho | ⟨t, ho, hcan, _⟩
      · rw [ho]
        rfl
      · rw [ho]
        have ht : t.1 = tid := by
          rw [hcan] at hc
          exact Option.some.inj hc
        simp [List.filter_cons, ht]
    dsimp only
    by_cases hd : s.sendDone = true
    · rw [if_pos hd]
      apply timerInv_nil
      rw [notifyDoneMessage_state]
      exact hout
    · rw [if_neg hd]
      exact timerInv_nil hout

/-- The watched-value change handler preserves the invariant. -/
theorem timerInv_watched (cfg : AlertCfg) (t : String) (s : AlertState) (h : TimerInv s) :
    TimerInv (watchedEntityChange cfg t s).1 := by
  unfold watchedEntityChange
  by_cases h1 : (t == cfg.alertState && !s.firing) = true
  · rw [if_pos h1]
    have hnf : s.firing = false := by
      have := (Bool.and_eq_true _ _).mp h1
      cases hft : s.firing
      · rfl
      · rw [hft] at this
        exact absurd this.2 (by simp)
    have ho : s.outstanding = [] := by
      rcases timerInv_cases h with ho | ⟨u, _, _, hf⟩
      · exact ho
      · rw [hf] at hnf
        cases hnf
    have hb := timerInv_begin cfg s ho
    rcases hJ : beginAlerting cfg s with ⟨s1, r1⟩
    rw [hJ] at hb
    cases r1
    · exact hb
    · dsimp only
      by_cases h2 : (t != cfg.alertState && s1.firing) = true
      · rw [if_pos h2]
        exact timerInv_end cfg s1 hb
      · rw [if_neg h2]
        exact hb
  · rw [if_neg h1]
    by_cases h2 : (t != cfg.alertState && s.firing) = true
    · rw [if_pos h2]
      exact timerInv_end cfg s h
    · rw [if_neg h2]
      exact h

/-- The timer service preserves the invariant when a timer fires. -/
theorem timerInv_fire (cfg : AlertCfg) (tid : Nat) (s : AlertState) (h : TimerInv s) :
    TimerInv (timerFire cfg tid s).1 := by
  unfold timerFire
  by_cases hAny : (s.outstanding.any (fun t => t.1 == tid)) = true
  · rw [if_pos hAny]
    apply timerInv_notify
    show s.outstanding.filter (fun t => t.1 != tid) = []
    rcases timerInv_cases h with ho | ⟨u, ho, _, _⟩
    · rw [ho]
      rfl
    · rw [ho] at hAny ⊢
      have hu : u.1 = tid := by
        simpa [List.any_cons] using hAny
      simp [List.filter_cons, hu]
  · rw [if_neg hAny]
    exact h

/-- TimerInv only looks at the outstanding, cancel and firing fields. -/
theorem timerInv_congr {s s2 : AlertState} (ho : s2.outstanding = s.outstanding)
    (hc : s2.cancel = s.cancel) (hf : s2.firing = s.firing) (h : TimerInv s) :
    TimerInv s2 := by
  unfold TimerInv at h ⊢
  rw [ho, hc, hf]
  exact h

/-- Every serialized event preserves the invariant. -/
theorem timerInv_step (cfg : AlertCfg) (s : AlertState) (e : Event) (h : TimerInv s) :
    TimerInv (step cfg s e) := by
  cases e with
  | watched t => exact timerInv_watched cfg t s h
  | timer tid => exact timerInv_fire cfg tid s h
  | turnOnE => exact timerInv_congr rfl rfl rfl h
  | turnOffE => exact timerInv_congr rfl rfl rfl h
  | toggleE =>
      show TimerInv (asyncToggle s).1
      unfold asyncToggle
      by_cases ha : s.ack = true
      · rw [if_pos ha]
        exact timerInv_congr rfl rfl rfl h
      · rw [if_neg ha]
        exact timerInv_congr rfl rfl rfl h

/-- The invariant holds in every state reachable from construction. -/
theorem timerInv_run (cfg : AlertCfg) (evs : List Event) : TimerInv (run cfg evs) := by
  have hgen : ∀ (l : List Event) (s : AlertState),
      TimerInv s → TimerInv (l.foldl (step cfg) s) := by
    intro l
    induction l with
    | nil => exact fun s h => h
    | cons e tl ih => exact fun s h => ih _ (timerInv_step cfg s e h)
  exact hgen evs initState (timerInv_nil rfl)

/-- Claim C9, amended: in every reachable state at most one timer is
outstanding, an outstanding timer can only exist while firing, and it
is exactly the one whose handle is stored in _cancel; however the
_cancel field itself is not cleared when firing ends, so a non-nil
(stale) handle while not firing is reachable (see the
counterexample). -/
theorem C9_at_most_one_timer_amended (cfg : AlertCfg) (evs : List Event) :
    (run cfg evs).outstanding.length ≤ 1 ∧
    ((run cfg evs).firing = false → (run cfg evs).outstanding = []) ∧
    (∀ t, t ∈ (run cfg evs).outstanding → (run cfg evs).cancel = some t.1) := by
  have h := timerInv_run cfg evs
  rcases timerInv_cases h with ho | ⟨t, ho, hc, hf⟩
  · rw [ho]
    exact ⟨by simp, fun _ => rfl, by simp⟩
  · rw [ho]
    refine ⟨by simp, ?_, ?_⟩
    · intro hff
      rw [hf] at hff
      cases hff
    · intro u hu
      have := List.mem_singleton.mp hu
      rw [this]
      exact hc

/-- Witness for the amended C9 at a concrete input. -/
theorem C9_at_most_one_timer_witness :
    (run cfgSkip [Event.watched "on"]).outstanding.length ≤ 1 :=
  (C9_at_most_one_timer_amended cfgSkip [Event.watched "on"]).1

/-- Witness for C10 at a concrete input. -/
theorem C10_toggle_involution_witness :
    asyncToggle initState = (if initState.ack then asyncTurnOn initState
      else asyncTurnOff initState) ∧
    (asyncToggle (asyncToggle initState).1).1 = initState :=
  C10_toggle_involution initState
